import Mathlib

/-!
Verification development for the exam submission grading pipeline of the
`acad_ai` repository (`server/src/assessments` and `server/src/grading`).

The Python source is shallowly embedded: Django `Decimal` fields become `ℚ`
(decimal values embed exactly into the rationals), database tables become
lists of records, querysets become list operations over those records, and
fallible Python code returns `Except`.  Values decoded from provider JSON are
modelled by the inductive `JsonV`; `json.loads` maps an integer literal to an
`int` and any other number to a `float`, and both are carried here as the
exact rational value of the decimal literal (CPython renders such values back
with `str` in shortest-round-trip decimal form, which is the form `JsonV.num`
is rendered in below; the `int`/`float` distinction, which affects only the
trailing ".0" of a whole-number float rendering, is not tracked).

Field and function names follow the source where Lean allows it.
-/

namespace AcadAi

/-- JSON values as decoded by Python `json.loads`: `None`, `bool`, numbers,
strings, lists and string-keyed dicts (kept as association lists in document
order). -/
inductive JsonV where
  | null : JsonV
  | boolean : Bool → JsonV
  | num : ℚ → JsonV
  | str : String → JsonV
  | arr : List JsonV → JsonV
  | obj : List (String × JsonV) → JsonV

/-- Dictionary lookup, `d.get(k)` / `d[k]` on a decoded JSON object: the value
of the first field named `k`. -/
def dictGet (d : List (String × JsonV)) (k : String) : Option JsonV :=
  (d.find? (fun kv => kv.1 == k)).map (fun kv => kv.2)

/-- Python `str.strip()`: drop whitespace from both ends (Python also strips
some further Unicode whitespace code points; the grading pipeline only ever
strips ASCII text). -/
def pyStrip (s : String) : String :=
  ⟨((s.data.dropWhile Char.isWhitespace).reverse.dropWhile Char.isWhitespace).reverse⟩

/-- Python slicing `s[:n]` by characters. -/
def pyTake (s : String) (n : Nat) : String :=
  ⟨s.data.take n⟩

/-- Decimal digits of a natural number, as Python renders an `int`. -/
def natRepr (n : Nat) : String :=
  if _h : n < 10 then String.singleton (Nat.digitChar n)
  else natRepr (n / 10) ++ String.singleton (Nat.digitChar (n % 10))
decreasing_by exact Nat.div_lt_self (by omega) (by omega)

/-- Python rendering of an `int` (minus sign followed by decimal digits). -/
def intRepr (i : Int) : String :=
  if i < 0 then "-" ++ natRepr i.natAbs else natRepr i.natAbs

/-- Decimal expansion of the fractional part `r` (with `0 ≤ r < 1`), emitting
digits until the remainder is zero.  `fuel` bounds the number of digits; JSON
number literals surviving a round trip through a double have short exact
expansions, so the bound is never reached on values the program encounters. -/
def fracDigits (r : ℚ) (fuel : Nat) : String :=
  match fuel with
  | 0 => ""
  | fuel + 1 =>
    if r = 0 then ""
    else
      let d := (r * 10).floor
      String.singleton (Nat.digitChar d.natAbs) ++ fracDigits (r * 10 - d) fuel

/-- Python `str` of a JSON number: integers render without a fractional part,
other values with a dot and their decimal digits. -/
def pyNumRepr (q : ℚ) : String :=
  if q.den = 1 then intRepr q.num
  else
    let sign := if q < 0 then "-" else ""
    let a := |q|
    sign ++ natRepr a.floor.natAbs ++ "." ++ fracDigits (a - a.floor) 40

mutual

/-- Python `repr` of a decoded JSON value (what `str` shows for elements of a
list or dict: strings are quoted). -/
def pyRepr : JsonV → String
  | .null => "None"
  | .boolean true => "True"
  | .boolean false => "False"
  | .num q => pyNumRepr q
  | .str s => "\x27" ++ s ++ "\x27"
  | .arr xs => "[" ++ pyReprList xs ++ "]"
  | .obj kvs => "\x7b" ++ pyReprFields kvs ++ "\x7d"

/-- Comma-separated `repr`s of list elements. -/
def pyReprList : List JsonV → String
  | [] => ""
  | [x] => pyRepr x
  | x :: y :: xs => pyRepr x ++ ", " ++ pyReprList (y :: xs)

/-- Comma-separated `repr`s of dict fields. -/
def pyReprFields : List (String × JsonV) → String
  | [] => ""
  | [kv] => "\x27" ++ kv.1 ++ "\x27: " ++ pyRepr kv.2
  | kv :: kw :: kvs => "\x27" ++ kv.1 ++ "\x27: " ++ pyRepr kv.2 ++ ", " ++ pyReprFields (kw :: kvs)

end

/-- Python `str` of a decoded JSON value: identity on strings, `repr`
otherwise. -/
def pyStr : JsonV → String
  | .str s => s
  | v => pyRepr v

/-- Characters of the longest digit run at the front. -/
def takeDigits (cs : List Char) : List Char := cs.takeWhile (fun c => c.isDigit)

/-- Characters after the longest digit run at the front. -/
def dropDigits (cs : List Char) : List Char := cs.dropWhile (fun c => c.isDigit)

/-- Value of a digit list read as a base-10 natural number. -/
def digitsToNat (cs : List Char) : Nat :=
  cs.foldl (fun acc c => acc * 10 + (c.toNat - 48)) 0

/-- Parse the body of a decimal literal, digits with an optional single dot
(`"10"`, `"7.5"`, `"1."`, `".5"`).  Exponent forms and the special values
accepted by Python `Decimal` are outside the fragment this program
exercises and are rejected here. -/
def parseUnsignedDecimal (cs : List Char) : Option ℚ :=
  let ip := takeDigits cs
  let rest := dropDigits cs
  match rest with
  | [] => if ip.isEmpty then none else some (digitsToNat ip : ℚ)
  | c :: rest2 =>
    if c = '.' then
      let fp := takeDigits rest2
      if (dropDigits rest2).isEmpty ∧ ¬(ip.isEmpty ∧ fp.isEmpty) then
        some ((digitsToNat ip : ℚ) + (digitsToNat fp : ℚ) / (10 ^ fp.length : ℚ))
      else none
    else none

/-- Parse a decimal literal with optional sign and surrounding whitespace, as
`decimal.Decimal` accepts for the inputs this program produces. -/
def parseDecimalString (s : String) : Option ℚ :=
  match (pyStrip s).data with
  | '-' :: cs => (parseUnsignedDecimal cs).map (fun q => -q)
  | '+' :: cs => parseUnsignedDecimal cs
  | cs => parseUnsignedDecimal cs

/-- Python `Decimal(str(x))` for a decoded JSON value `x`: numbers convert to
their exact decimal value, decimal-literal strings parse, and everything else
(whose `str` is not a decimal literal) raises `InvalidOperation`, modelled as
`none`. -/
def pyDecimalOfStr : JsonV → Option ℚ
  | .num q => some q
  | .str s => parseDecimalString s
  | _ => none

/-- Truncation toward zero, as Python `int()` applied to a `float`. -/
def ratTrunc (q : ℚ) : Int :=
  q.num.tdiv q.den

/-- Parse an integer literal with optional sign and surrounding whitespace, as
Python `int(str)`. -/
def parseIntString (s : String) : Option Int :=
  let core : List Char → Option Int := fun cs =>
    if cs.isEmpty ∨ ¬(dropDigits cs).isEmpty then none
    else some (digitsToNat cs : Int)
  match (pyStrip s).data with
  | '-' :: cs => (core cs).map (fun i => -i)
  | '+' :: cs => core cs
  | cs => core cs

/-- Python `int(x)` on a decoded JSON value: truncates numbers, parses integer
strings, maps booleans to 0/1, and raises (`none`) on everything else. -/
def pyInt : JsonV → Option Int
  | .num q => some (ratTrunc q)
  | .str s => parseIntString s
  | .boolean b => some (if b then 1 else 0)
  | _ => none

/-! ## Data model (`assessments/constants.py`, `assessments/models.py`)

Tables become lists of records; `Decimal` columns become `ℚ`; timestamps
become rationals (only their ordering matters to `Exam.is_open`). -/

/-- Question kinds (`QuestionType` in `constants.py`). -/
inductive QuestionType where
  | mcq : QuestionType
  | shortText : QuestionType
deriving DecidableEq, Repr

/-- Submission lifecycle states (`SubmissionStatus` in `constants.py`). -/
inductive SubmissionStatus where
  | submitted : SubmissionStatus
  | graded : SubmissionStatus
deriving DecidableEq, Repr

/-- An answer option of a multiple-choice question (`Choice` model). -/
structure Choice where
  id : Nat
  text : String
  is_correct : Bool
deriving DecidableEq, Repr

/-- A question of an exam (`Question` model) with its owned choices.  The
`metadata` JSON column is read only by the feedback-summary rewrite, which is
outside the properties below, and is omitted. -/
structure Question where
  id : Nat
  type : QuestionType
  prompt : String
  expected_answer : String
  points : ℚ
  order : Nat
  choices : List Choice
deriving DecidableEq, Repr

/-- Course identification, as far as the pipeline reads it (`Course` model). -/
structure Course where
  code : String
  name : String
deriving DecidableEq, Repr

/-- An exam with its owned questions (`Exam` model). -/
structure Exam where
  id : Nat
  title : String
  duration_minutes : Nat
  course : Course
  is_active : Bool
  starts_at : Option ℚ
  ends_at : Option ℚ
  questions : List Question
deriving DecidableEq, Repr

/-- Whether the exam accepts submissions at instant `now` (`Exam.is_open`). -/
def Exam.isOpen (e : Exam) (now : ℚ) : Bool :=
  if !e.is_active then false
  else if e.starts_at.any (fun s => decide (now < s)) then false
  else if e.ends_at.any (fun t => decide (t < now)) then false
  else true

/-- A `Submission` row. -/
structure SubmissionRow where
  id : Nat
  student_id : Nat
  exam_id : Nat
  status : SubmissionStatus
  submitted_at : ℚ
  graded_at : Option ℚ
  score : ℚ
  max_score : ℚ
  feedback : List (String × JsonV)
  grading_version : String

/-- A `SubmissionAnswer` row.  The grading fields `is_correct`,
`awarded_points` and `feedback` are null/empty until the grading pipeline
fills them. -/
structure SubmissionAnswerRow where
  submission_id : Nat
  question_id : Nat
  answer_text : String
  selected_choice_id : Option Nat
  is_correct : Option Bool
  awarded_points : Option ℚ
  feedback : String

/-- A submission answer joined to its question, as produced by
`SubmissionAnswer.objects.select_related("question")`. -/
structure JoinedAnswer where
  question : Question
  answer_text : String
  selected_choice_id : Option Nat
deriving DecidableEq, Repr

/-- The record store: exams (owning questions and choices), submissions and
submission answers.  `nextSubmissionId` models primary-key allocation. -/
structure Store where
  exams : List Exam
  submissions : List SubmissionRow
  answers : List SubmissionAnswerRow
  nextSubmissionId : Nat

/-- Look up a question by id across all exams (the global `Question` table). -/
def Store.findQuestion (st : Store) (qid : Nat) : Option Question :=
  ((st.exams.map Exam.questions).flatten).find? (fun q => decide (q.id = qid))

/-- The submission answers of submission `sid` joined to their questions.
Foreign-key integrity guarantees the join never drops a row. -/
def Store.joinedAnswers (st : Store) (sid : Nat) : List JoinedAnswer :=
  (st.answers.filter (fun a => decide (a.submission_id = sid))).filterMap
    (fun a => (st.findQuestion a.question_id).map
      (fun q => ⟨q, a.answer_text, a.selected_choice_id⟩))

/-! ## Grading DTOs and errors (`grading/dto.py`, `grading/exceptions.py`)

The single Python exception class `LLMGradingError` together with the other
exception types the pipeline can raise (`rest_framework` `ValidationError`,
Django `DoesNotExist` / `IntegrityError`, `KeyError`, `TypeError`,
`decimal.InvalidOperation`, `requests` transport errors) become one error
inductive. -/

/-- A normalized per-question grade (`PerQuestionGrade` dataclass).
`question_id` is an `Int` because the source coerces it with `int(...)`. -/
structure PerQuestionGrade where
  question_id : Int
  awarded_points : ℚ
  is_correct : Option Bool
  feedback : String
deriving DecidableEq, Repr

/-- A normalized grading result (`GradeResult` dataclass).  The `feedback`
dict is carried as normalized; the subsequent `_enhance_feedback_with_mcq`
step only rewrites its `summary` display string (float percentage formatting)
and none of the properties below concern it, so that rewrite is not
modelled. -/
structure GradeResult where
  total_score : ℚ
  max_score : ℚ
  grading_version : String
  feedback : List (String × JsonV)
  per_question : List PerQuestionGrade

/-- The exceptions the pipeline raises, by Python class. -/
inductive Err where
  | llmGrading : String → Err
  | validation : String → Err
  | doesNotExist : String → Err
  | integrity : String → Err
  | keyError : String → Err
  | typeError : String → Err
  | invalidOperation : String → Err
  | requestException : String → Err
deriving DecidableEq, Repr

/-- Python `str(exc)`: the exception message. -/
def Err.str : Err → String
  | .llmGrading m => m
  | .validation m => m
  | .doesNotExist m => m
  | .integrity m => m
  | .keyError m => m
  | .typeError m => m
  | .invalidOperation m => m
  | .requestException m => m

/-! ## Provider adapter (`grading/providers/openai_provider.py`)

The network is the environment: each attempt of `OpenAIProvider.grade` is
resolved by an `AttemptEnv` describing what `requests.post` and the body
decoding did on that attempt.  The adapter logic — the status check, the
non-JSON error, the retry loop, the backoff sleeps, and the final
`LLMGradingError` — is embedded from the source. -/

/-- Environment outcome of the body handling of one HTTP response:
either decoding `resp.json()["choices"][0]["message"]["content"]` raised
(malformed transport body), or it yielded the content string, with `parsed`
the result of `json.loads` on it (`none` = not JSON; a JSON object is the
shape the provider contract fixes). -/
inductive BodyEnv where
  | badTransport : String → BodyEnv
  | content : String → Option (List (String × JsonV)) → BodyEnv

/-- Environment outcome of one attempt: `requests.post` raised, or returned a
response with a status code, a body text and a body outcome. -/
inductive AttemptEnv where
  | netError : String → AttemptEnv
  | resp : Nat → String → BodyEnv → AttemptEnv

/-- The body of the `try` block of `OpenAIProvider.grade` for one attempt:
raise on a transport error, raise `LLMGradingError` on status ≥ 400, raise on
a malformed transport body, and parse the content with `_parse_json`. -/
def attemptOnce : AttemptEnv → Except Err (List (String × JsonV))
  | .netError m => .error (.requestException m)
  | .resp status text body =>
    if status ≥ 400 then
      .error (.llmGrading ("OpenAI error " ++ natRepr status ++ ": " ++ text))
    else
      match body with
      | .badTransport m => .error (.typeError m)
      | .content t parsed =>
        match parsed with
        | some o => .ok o
        | none => .error (.llmGrading ("LLM returned non-JSON output: " ++ pyTake t 500))

/-- The retry budget of the adapter (`self.max_retries = 3`). -/
def maxRetries : Nat := 3

/-- The backoff base delay in seconds (the literal `0.8` in
`time.sleep(0.8 * (attempt + 1))`). -/
def baseDelay : ℚ := 8 / 10

/-- The retry loop of `OpenAIProvider.grade` from attempt number `attempt`
on: run one attempt; on success return its value, on failure either sleep
`baseDelay * (attempt + 1)` and retry, or — once `attempt` reaches the retry
budget — raise `LLMGradingError` carrying the last underlying error.  Returns
the outcome together with the number of attempts made and the list of sleep
durations, in order. -/
def gradeAux (envs : Nat → AttemptEnv) (attempt : Nat) (sleeps : List ℚ) :
    Except Err (List (String × JsonV)) × Nat × List ℚ :=
  if _h : attempt ≤ maxRetries then
    match attemptOnce (envs attempt) with
    | .ok v => (.ok v, attempt + 1, sleeps)
    | .error e =>
      if attempt ≥ maxRetries then
        (.error (.llmGrading ("LLM grading failed: " ++ e.str)), attempt + 1, sleeps)
      else
        gradeAux envs (attempt + 1) (sleeps ++ [baseDelay * ((attempt : ℚ) + 1)])
  else
    (.error (.llmGrading "LLM grading failed: None"), attempt, sleeps)
termination_by maxRetries + 1 - attempt
decreasing_by omega

/-- `OpenAIProvider.grade`, abstracted over the per-attempt network
environment. -/
def openAIGrade (envs : Nat → AttemptEnv) :
    Except Err (List (String × JsonV)) × Nat × List ℚ :=
  gradeAux envs 0 []

/-! ## Payload builder (`grading/service.py`: `_build_payload`,
`_payload_text_only`)

The source converts `Decimal` point values with `float(...)` purely for JSON
serialization towards the provider; the payload here keeps the exact rational
value. -/

/-- The first choice of a question marked correct
(`q.choices.filter(is_correct=True).first()`). -/
def firstCorrectChoice (q : Question) : Option Choice :=
  q.choices.find? (fun c => c.is_correct)

/-- One entry of the payload `questions` list. -/
structure PayloadQuestion where
  question_id : Nat
  type : QuestionType
  prompt : String
  expected_answer : String
  max_points : ℚ
  student_answer_text : String
  selected_choice_id : Option Nat
  correct_choice_id : Option Nat
  choices : List (Nat × String)
deriving DecidableEq, Repr

/-- The provider input payload built by `_build_payload`. -/
structure Payload where
  exam_id : Nat
  exam_title : String
  course_code : String
  course_name : String
  submission_id : Nat
  student_id : Nat
  questions : List PayloadQuestion
  max_score : ℚ
  grade_only_text : Bool
deriving DecidableEq, Repr

/-- `_build_payload`: one entry per exam question in display order
(`order_by("order")`, a stable sort), with the student answer joined in and
the correct choice precomputed for MCQ questions; `max_score` here is the sum
over all exam questions. -/
def buildPayload (exam : Exam) (sub : SubmissionRow) (answers : List JoinedAnswer) :
    Payload :=
  let ordered := exam.questions.mergeSort (fun a b => decide (a.order ≤ b.order))
  { exam_id := exam.id
    exam_title := exam.title
    course_code := exam.course.code
    course_name := exam.course.name
    submission_id := sub.id
    student_id := sub.student_id
    questions := ordered.map (fun q =>
      let a := answers.find? (fun x => decide (x.question.id = q.id))
      { question_id := q.id
        type := q.type
        prompt := q.prompt
        expected_answer := q.expected_answer
        max_points := q.points
        student_answer_text := (a.map (fun x => x.answer_text)).getD ""
        selected_choice_id := a.bind (fun x => x.selected_choice_id)
        correct_choice_id :=
          if q.type = .mcq then (firstCorrectChoice q).map (fun c => c.id) else none
        choices := q.choices.map (fun c => (c.id, c.text)) })
    max_score := (exam.questions.map (fun q => q.points)).sum
    grade_only_text := true }

/-- `_payload_text_only`: keep only the `SHORT_TEXT` questions before the
payload is sent externally. -/
def payloadTextOnly (p : Payload) : Payload :=
  { p with questions := p.questions.filter (fun q => decide (q.type = .shortText)) }

/-! ## Result normalizer and MCQ merge (`grading/service.py`:
`_normalize_grade_result`, `_merge_with_deterministic_mcq`) -/

/-- The two sequential clamping `if`s of `_normalize_grade_result`
(`if awarded < 0: awarded = 0` then `if awarded > q_points: awarded =
q_points`). -/
def clampAward (x maxPts : ℚ) : ℚ :=
  if (if x < 0 then 0 else x) > maxPts then maxPts
  else if x < 0 then 0 else x

/-- The `is_correct` coercion of `_normalize_grade_result`: preserved only if
it is exactly a boolean, everything else (including `None`) becomes `None`. -/
def coerceIsCorrect (v : JsonV) : Option Bool :=
  match v with
  | .boolean b => some b
  | _ => none

/-- The `feedback` coercion of `_normalize_grade_result`: kept if it is a
dict, anything else replaced by `{"summary": ""}`. -/
def coerceFeedback (v : JsonV) : List (String × JsonV) :=
  match v with
  | .obj kvs => kvs
  | _ => [("summary", JsonV.str "")]

/-- The body of the per-item loop of `_normalize_grade_result`: coerce
`question_id` with `int(...)` (a missing key raises `KeyError`, a non-dict
item raises `TypeError`), coerce `awarded_points` with `Decimal(str(...))`
defaulting to 0, keep `is_correct` only when it is exactly a boolean
(anything else collapses to `None`), trim the feedback string, fetch the
authoritative question points through the submission answer row
(`answers.get(question_id=qid)`, raising `DoesNotExist` when the submission
has no answer for that question), and clamp. -/
def normalizeItem (answers : List JoinedAnswer) (item : JsonV) :
    Except Err PerQuestionGrade :=
  match item with
  | .obj fields =>
    (match dictGet fields "question_id" with
     | none => .error (.keyError "question_id")
     | some qidV =>
       match pyInt qidV with
       | none => .error (.typeError "int() argument must be a number or a string")
       | some qid =>
         match pyDecimalOfStr ((dictGet fields "awarded_points").getD (.num 0)) with
         | none => .error (.invalidOperation "invalid decimal literal")
         | some awarded =>
           match answers.find? (fun a => decide ((a.question.id : Int) = qid)) with
           | none => .error (.doesNotExist "SubmissionAnswer matching query does not exist.")
           | some a =>
             .ok { question_id := qid
                   awarded_points := clampAward awarded a.question.points
                   is_correct := coerceIsCorrect ((dictGet fields "is_correct").getD .null)
                   feedback := pyStrip (pyStr ((dictGet fields "feedback").getD (.str ""))) })
  | _ => .error (.typeError "item indices must be strings of a dict")

/-- The per-item loop of `_normalize_grade_result` over the raw
`per_question` list, accumulating the running total and the normalized
entries in order.  The source accumulates the total left to right; rational
addition is commutative and associative, so the grouping used here yields the
same value, and the error raised is the one of the first malformed item in
both. -/
def normalizeAll (answers : List JoinedAnswer) :
    List JsonV → Except Err (ℚ × List PerQuestionGrade)
  | [] => .ok (0, [])
  | it :: rest =>
    match normalizeItem answers it with
    | .error e => .error e
    | .ok g =>
      match normalizeAll answers rest with
      | .error e => .error e
      | .ok (t, gs) => .ok (g.awarded_points + t, g :: gs)

/-- The body of the per-answer loop of `_merge_with_deterministic_mcq`: the
first correct choice decides; `bool(correct and a.selected_choice_id ==
correct.id)` is false when no choice is marked correct or none was selected;
points are all or nothing; the feedback text is fixed. -/
def mcqGrade (a : JoinedAnswer) : PerQuestionGrade :=
  let correct := firstCorrectChoice a.question
  let isc : Bool :=
    match correct with
    | some c => decide (a.selected_choice_id = some c.id)
    | none => false
  { question_id := (a.question.id : Int)
    awarded_points := if isc then a.question.points else 0
    is_correct := some isc
    feedback := if isc then "Correct." else "Incorrect." }

/-- `_merge_with_deterministic_mcq`: append a deterministic grade for every
MCQ answer whose question id is not already present in the normalized list
(`existing_qids` is computed once, before the loop), accumulate the added
points into the running total, and sort the merged list by question id
ascending (`list.sort` is a stable sort, as is `List.mergeSort`). -/
def mergeWithDeterministicMcq (answers : List JoinedAnswer) (total_score : ℚ)
    (per_question : List PerQuestionGrade) : ℚ × List PerQuestionGrade :=
  let existing_qids := per_question.map (fun p => p.question_id)
  let added :=
    (answers.filter (fun a =>
      decide (a.question.type = .mcq) && !(decide ((a.question.id : Int) ∈ existing_qids)))).map
      mcqGrade
  (total_score + (added.map (fun g => g.awarded_points)).sum,
   (per_question ++ added).mergeSort (fun x y => decide (x.question_id ≤ y.question_id)))

/-- The `per_question` shape check of `_normalize_grade_result`:
`resp.get("per_question", [])` silently defaults a missing key to the empty
list, and only a present non-list value raises `LLMGradingError`. -/
def perQuestionRaw : Option JsonV → Except Err (List JsonV)
  | none => .ok []
  | some (.arr xs) => .ok xs
  | some _ => .error (.llmGrading "per_question must be a list")

/-- The body of `_normalize_grade_result`, abstracted over the three values
the source reads from the response dict (`grading_version`, `feedback`,
`per_question`; `none` models an absent key).  `max_score` is recomputed as
the sum of the question points over the submission answer rows. -/
def normalizeCore (gv fb pq : Option JsonV) (answers : List JoinedAnswer) :
    Except Err GradeResult :=
  let grading_version := pyStr (gv.getD (.str "llm-v1"))
  let feedback : List (String × JsonV) := coerceFeedback (fb.getD (.obj []))
  match perQuestionRaw pq with
  | .error e => .error e
  | .ok raw =>
    let max_score := (answers.map (fun a => a.question.points)).sum
    match normalizeAll answers raw with
    | .error e => .error e
    | .ok (total_score, per_question) =>
      let m := mergeWithDeterministicMcq answers total_score per_question
      .ok { total_score := m.1
            max_score := max_score
            grading_version := grading_version
            feedback := feedback
            per_question := m.2 }

/-- `_normalize_grade_result` on a provider response that decoded to a JSON
object, given the submission answer rows joined to their questions. -/
def normalizeGradeResult (resp : List (String × JsonV)) (answers : List JoinedAnswer) :
    Except Err GradeResult :=
  normalizeCore (dictGet resp "grading_version") (dictGet resp "feedback")
    (dictGet resp "per_question") answers

/-- `grade_submission_with_provider`: fetch the submission and its exam,
build the payload, filter it to text questions, construct the provider
(raising when the API key setting is falsy), invoke it against the network
environment and normalize the response. -/
def gradeSubmissionWithProvider (st : Store) (submission_id : Nat) (apiKey : String)
    (envs : Nat → AttemptEnv) : Except Err GradeResult :=
  match st.submissions.find? (fun s => decide (s.id = submission_id)) with
  | none => .error (.doesNotExist "Submission matching query does not exist.")
  | some sub =>
    match st.exams.find? (fun e => decide (e.id = sub.exam_id)) with
    | none => .error (.doesNotExist "Exam matching query does not exist.")
    | some exam =>
      let answers := st.joinedAnswers submission_id
      let _payload := payloadTextOnly (buildPayload exam sub answers)
      if apiKey = "" then .error (.llmGrading "OPENAI_API_KEY is missing.")
      else
        match (openAIGrade envs).1 with
        | .error e => .error e
        | .ok resp => normalizeGradeResult resp answers

/-! ## Submission orchestrator
(`assessments/services/submission_service.py`: `create_and_grade_submission`)

The function body runs under `@transaction.atomic`; the wrapper
`createAndGradeSubmission` below models the transaction: the body threads the
store through every mutation, and an error restores the caller's store. -/

/-- One element of `answers_payload`. -/
structure AnswerPayloadItem where
  question_id : Nat
  selected_choice_id : Option Nat
  answer_text : Option String
deriving DecidableEq, Repr

/-- The per-item answer-row construction of `create_and_grade_submission`:
for an MCQ question a truthy `selected_choice_id` (neither absent nor 0) must
belong to the question (`_validate_choice`); for a text question the answer
text is trimmed, an absent or empty value becoming the empty string. -/
def mkAnswerRow (subId : Nat) (q : Question) (item : AnswerPayloadItem) :
    Except Err SubmissionAnswerRow :=
  if q.type = .mcq then
    match item.selected_choice_id with
    | some cid =>
      if cid ≠ 0 then
        match q.choices.find? (fun c => decide (c.id = cid)) with
        | some c => .ok ⟨subId, q.id, "", some c.id, none, none, ""⟩
        | none => .error (.validation "Choice does not belong to the question.")
      else .ok ⟨subId, q.id, "", none, none, none, ""⟩
    | none => .ok ⟨subId, q.id, "", none, none, none, ""⟩
  else
    .ok ⟨subId, q.id, pyStrip (item.answer_text.getD ""), none, none, none, ""⟩

/-- The answer-row building loop, in payload order
(`questions_by_id[item["question_id"]]` cannot miss after validation; a miss
would be a `KeyError`). -/
def buildAnswerRows (exam : Exam) (subId : Nat) :
    List AnswerPayloadItem → Except Err (List SubmissionAnswerRow)
  | [] => .ok []
  | item :: rest =>
    match exam.questions.find? (fun q => decide (q.id = item.question_id)) with
    | none => .error (.keyError "question_id")
    | some q =>
      match mkAnswerRow subId q item with
      | .error e => .error e
      | .ok row =>
        match buildAnswerRows exam subId rest with
        | .error e => .error e
        | .ok rows => .ok (row :: rows)

/-- The body of `create_and_grade_submission`: validate the exam is open and
not already submitted by this student, batch-validate the payload question
ids, insert the `Submission` row, build and bulk-insert the answer rows (the
storage constraint `uniq_submission_question` rejects duplicate question ids
in the payload), grade through the provider, then persist the grade onto the
submission and — matched by question id, the last per-question entry winning
on a duplicate id — onto the answer rows.  `now` stands for both
`timezone.now()` readings (only presence of `graded_at` matters here). -/
def createAndGradeBody (st : Store) (now : ℚ) (user_id exam_id : Nat)
    (answers_payload : List AnswerPayloadItem) (apiKey : String)
    (envs : Nat → AttemptEnv) : Except Err (Store × Nat) :=
  match st.exams.find? (fun e => decide (e.id = exam_id)) with
  | none => .error (.doesNotExist "Exam matching query does not exist.")
  | some exam =>
    if !(exam.isOpen now) then .error (.validation "Exam is not open for submissions.")
    else if st.submissions.any (fun s => decide (s.student_id = user_id) && decide (s.exam_id = exam_id)) then
      .error (.validation "You have already submitted this exam.")
    else
      let question_ids := answers_payload.map (fun a => a.question_id)
      let missing := question_ids.filter
        (fun qid => !(exam.questions.any (fun q => decide (q.id = qid))))
      if missing ≠ [] then
        .error (.validation ("Invalid question_id(s) for this exam: " ++ toString missing))
      else
        let subId := st.nextSubmissionId
        let submission : SubmissionRow :=
          ⟨subId, user_id, exam_id, .submitted, now, none, 0, 0, [], ""⟩
        let st1 : Store :=
          { st with submissions := st.submissions ++ [submission]
                    nextSubmissionId := subId + 1 }
        match buildAnswerRows exam subId answers_payload with
        | .error e => .error e
        | .ok rows =>
          if ¬ question_ids.Nodup then .error (.integrity "uniq_submission_question")
          else
            let st2 : Store := { st1 with answers := st1.answers ++ rows }
            match gradeSubmissionWithProvider st2 subId apiKey envs with
            | .error e => .error e
            | .ok gr =>
              let st3 : Store :=
                { st2 with submissions := st2.submissions.map (fun s =>
                    if s.id = subId then
                      { s with score := gr.total_score
                               max_score := gr.max_score
                               feedback := gr.feedback
                               grading_version := gr.grading_version
                               status := .graded
                               graded_at := some now }
                    else s) }
              let st4 : Store :=
                { st3 with answers := st3.answers.map (fun r =>
                    if r.submission_id = subId then
                      match (gr.per_question.filter
                          (fun g => decide (g.question_id = (r.question_id : Int)))).getLast? with
                      | some g =>
                        { r with is_correct := g.is_correct
                                 awarded_points := some g.awarded_points
                                 feedback := g.feedback }
                      | none => r
                    else r) }
              .ok (st4, subId)

/-- `create_and_grade_submission` with its `@transaction.atomic` wrapper: on
success the mutated store and the new submission id are returned, on any
error the transaction is rolled back and the caller observes the original
store together with the raised error. -/
def createAndGradeSubmission (st : Store) (now : ℚ) (user_id exam_id : Nat)
    (answers_payload : List AnswerPayloadItem) (apiKey : String)
    (envs : Nat → AttemptEnv) : Store × Except Err Nat :=
  match createAndGradeBody st now user_id exam_id answers_payload apiKey envs with
  | .ok (st2, sid) => (st2, .ok sid)
  | .error e => (st, .error e)

/-! ## General lemmas -/

@[simp] theorem dictGet_nil (k : String) : dictGet [] k = none := rfl

@[simp] theorem dictGet_cons (k k2 : String) (v : JsonV) (d : List (String × JsonV)) :
    dictGet ((k, v) :: d) k2 = if k == k2 then some v else dictGet d k2 := by
  by_cases h : (k == k2) = true
  · simp [dictGet, List.find?_cons_of_pos, h]
  · simp only [Bool.not_eq_true] at h
    simp [dictGet, List.find?_cons_of_neg, h]

theorem clampAward_bounds (x maxPts : ℚ) (h : 0 ≤ maxPts) :
    0 ≤ clampAward x maxPts ∧ clampAward x maxPts ≤ maxPts := by
  unfold clampAward
  split_ifs <;> constructor <;> linarith

theorem normalizeItem_ok (answers : List JoinedAnswer) (item : JsonV)
    (g : PerQuestionGrade) (h : normalizeItem answers item = .ok g) :
    ∃ a x, answers.find? (fun x => decide ((x.question.id : Int) = g.question_id)) = some a ∧
      g.awarded_points = clampAward x a.question.points := by
  unfold normalizeItem at h
  cases item <;> try simp at h
  rename_i fields
  cases hqv : dictGet fields "question_id" <;> simp only [hqv] at h
  · simp at h
  rename_i qidV
  cases hqi : pyInt qidV <;> simp only [hqi] at h
  · simp at h
  rename_i qid
  cases haw : pyDecimalOfStr ((dictGet fields "awarded_points").getD (.num 0)) <;>
    simp only [haw] at h
  · simp at h
  rename_i awarded
  cases hfind : answers.find? (fun a => decide ((a.question.id : Int) = qid)) <;>
    simp only [hfind] at h
  · simp at h
  rename_i a
  obtain rfl := (Except.ok.injEq _ _).mp h
  exact ⟨a, awarded, hfind, rfl⟩

theorem normalizeAll_ok_total (answers : List JoinedAnswer) :
    ∀ items t per, normalizeAll answers items = .ok (t, per) →
      t = (per.map (fun g => g.awarded_points)).sum := by
  intro items
  induction items with
  | nil =>
    intro t per h
    simp only [normalizeAll, Except.ok.injEq, Prod.mk.injEq] at h
    simp [← h.1, ← h.2]
  | cons it rest ih =>
    intro t per h
    unfold normalizeAll at h
    cases hitem : normalizeItem answers it <;> simp only [hitem] at h
    · simp at h
    rename_i g
    cases hrest : normalizeAll answers rest <;> simp only [hrest] at h
    · simp at h
    rename_i p
    obtain ⟨t0, gs0⟩ := p
    simp only [Except.ok.injEq, Prod.mk.injEq] at h
    obtain ⟨rfl, rfl⟩ := h.symm
    simp [ih t0 gs0 hrest]

theorem normalizeAll_ok_mem (answers : List JoinedAnswer) :
    ∀ items t per, normalizeAll answers items = .ok (t, per) →
      ∀ g ∈ per, ∃ item ∈ items, normalizeItem answers item = .ok g := by
  intro items
  induction items with
  | nil =>
    intro t per h
    simp only [normalizeAll, Except.ok.injEq, Prod.mk.injEq] at h
    simp [← h.2]
  | cons it rest ih =>
    intro t per h
    unfold normalizeAll at h
    cases hitem : normalizeItem answers it <;> simp only [hitem] at h
    · simp at h
    rename_i g
    cases hrest : normalizeAll answers rest <;> simp only [hrest] at h
    · simp at h
    rename_i p
    obtain ⟨t0, gs0⟩ := p
    simp only [Except.ok.injEq, Prod.mk.injEq] at h
    obtain ⟨rfl, rfl⟩ := h.symm
    intro g2 hg2
    rcases List.mem_cons.mp hg2 with rfl | hmem
    · exact ⟨it, List.mem_cons_self _ _, hitem⟩
    · obtain ⟨item, hi, he⟩ := ih t0 gs0 hrest g2 hmem
      exact ⟨item, List.mem_cons_of_mem _ hi, he⟩

theorem normalizeCore_ok (gv fb pq : Option JsonV) (answers : List JoinedAnswer)
    (r : GradeResult) (h : normalizeCore gv fb pq answers = .ok r) :
    ∃ raw t per, perQuestionRaw pq = .ok raw ∧ normalizeAll answers raw = .ok (t, per) ∧
      r.total_score = (mergeWithDeterministicMcq answers t per).1 ∧
      r.per_question = (mergeWithDeterministicMcq answers t per).2 ∧
      r.max_score = (answers.map (fun a => a.question.points)).sum ∧
      r.grading_version = pyStr (gv.getD (.str "llm-v1")) := by
  unfold normalizeCore at h
  cases hraw : perQuestionRaw pq <;> simp only [hraw] at h
  · simp at h
  rename_i raw
  cases hall : normalizeAll answers raw <;> simp only [hall] at h
  · simp at h
  rename_i p
  obtain ⟨t0, per0⟩ := p
  obtain rfl := (Except.ok.injEq _ _).mp h
  exact ⟨raw, t0, per0, rfl, hall, rfl, rfl, rfl, rfl⟩

theorem sum_map_mergeSort (l : List PerQuestionGrade)
    (le : PerQuestionGrade → PerQuestionGrade → Bool) :
    ((l.mergeSort le).map (fun g => g.awarded_points)).sum =
      (l.map (fun g => g.awarded_points)).sum :=
  ((List.mergeSort_perm l le).map (fun g => g.awarded_points)).sum_eq

theorem merge_total (answers : List JoinedAnswer) (t : ℚ) (per : List PerQuestionGrade)
    (h : t = (per.map (fun g => g.awarded_points)).sum) :
    (mergeWithDeterministicMcq answers t per).1 =
      (((mergeWithDeterministicMcq answers t per).2).map (fun g => g.awarded_points)).sum := by
  unfold mergeWithDeterministicMcq
  rw [sum_map_mergeSort]
  simp only [List.map_append, List.sum_append, h]

theorem merge_sorted (answers : List JoinedAnswer) (t : ℚ) (per : List PerQuestionGrade) :
    ((mergeWithDeterministicMcq answers t per).2).Pairwise
      (fun x y => x.question_id ≤ y.question_id) := by
  unfold mergeWithDeterministicMcq
  refine List.Pairwise.imp (fun hb => of_decide_eq_true hb)
    (List.sorted_mergeSort ?_ ?_ _)
  · intro a b c hab hbc
    simp only [decide_eq_true_eq] at *
    omega
  · intro a b
    simp only [Bool.or_eq_true, decide_eq_true_eq]
    omega

theorem merge_mem_added (answers : List JoinedAnswer) (t : ℚ)
    (per : List PerQuestionGrade) (a : JoinedAnswer) (ha : a ∈ answers)
    (hmcq : a.question.type = .mcq)
    (hnot : ¬ ((a.question.id : Int) ∈ per.map (fun p => p.question_id))) :
    mcqGrade a ∈ (mergeWithDeterministicMcq answers t per).2 := by
  unfold mergeWithDeterministicMcq
  simp only [List.mem_mergeSort, List.mem_append]
  right
  refine List.mem_map_of_mem mcqGrade ?_
  refine List.mem_filter.mpr ⟨ha, ?_⟩
  show (decide (a.question.type = QuestionType.mcq) &&
      !(decide ((a.question.id : Int) ∈ per.map (fun p => p.question_id)))) = true
  rw [hmcq, decide_eq_false hnot]
  rfl

theorem gradeAux_congr (envs envs2 : Nat → AttemptEnv) :
    ∀ fuel k sleeps, maxRetries + 1 - k = fuel →
      (∀ i, k ≤ i → i ≤ maxRetries → envs2 i = envs i) →
      gradeAux envs2 k sleeps = gradeAux envs k sleeps := by
  intro fuel
  induction fuel with
  | zero =>
    intro k sleeps hf _h
    unfold gradeAux
    have : ¬ k ≤ maxRetries := by omega
    simp [this]
  | succ n ih =>
    intro k sleeps hf hagree
    have hk : k ≤ maxRetries := by omega
    unfold gradeAux
    simp only [hk, dite_true, dif_pos]
    rw [hagree k le_rfl hk]
    cases attemptOnce (envs k) with
    | ok v => rfl
    | error e =>
      by_cases hlast : k ≥ maxRetries
      · simp [hlast]
      · simp only [hlast, if_false, ite_false]
        exact ih (k + 1) _ (by omega) (fun i hi1 hi2 => hagree i (by omega) hi2)

theorem gradeAux_step_fail (envs : Nat → AttemptEnv) (k : Nat) (sleeps : List ℚ)
    (e : Err) (hk : k < maxRetries) (he : attemptOnce (envs k) = .error e) :
    gradeAux envs k sleeps = gradeAux envs (k + 1) (sleeps ++ [baseDelay * ((k : ℚ) + 1)]) := by
  rw [gradeAux, dif_pos (Nat.le_of_lt hk), he]
  exact if_neg (by omega)

theorem gradeAux_last_fail (envs : Nat → AttemptEnv) (k : Nat) (sleeps : List ℚ)
    (e : Err) (hk : maxRetries ≤ k) (hk2 : k ≤ maxRetries)
    (he : attemptOnce (envs k) = .error e) :
    gradeAux envs k sleeps =
      (.error (.llmGrading ("LLM grading failed: " ++ e.str)), k + 1, sleeps) := by
  rw [gradeAux, dif_pos hk2, he]
  exact if_pos hk

theorem natRepr_length_pos (n : Nat) : 0 < (natRepr n).length := by
  unfold natRepr
  split
  · simp [String.singleton]
  · simp [String.length_append, String.singleton]

theorem string_ne_empty_of_length (s : String) (h : 0 < s.length) : s ≠ "" := by
  intro he
  rw [he] at h
  simp at h

theorem intRepr_ne_empty (i : Int) : intRepr i ≠ "" := by
  unfold intRepr
  split
  · refine string_ne_empty_of_length _ ?_
    have := natRepr_length_pos i.natAbs
    simp only [String.length_append]
    omega
  · exact string_ne_empty_of_length _ (natRepr_length_pos _)

theorem pyNumRepr_ne_empty (q : ℚ) : pyNumRepr q ≠ "" := by
  unfold pyNumRepr
  split
  · exact intRepr_ne_empty _
  · refine string_ne_empty_of_length _ ?_
    have := natRepr_length_pos (|q|).floor.natAbs
    simp only [String.length_append]
    omega

theorem pyStr_eq_empty_iff (v : JsonV) : pyStr v = "" ↔ v = .str "" := by
  constructor
  · intro h
    cases v with
    | null => exact absurd h (by decide)
    | boolean b => cases b <;> exact absurd h (by decide)
    | num q => exact absurd h (pyNumRepr_ne_empty q)
    | str s => simp only [pyStr] at h; rw [h]
    | arr xs =>
      have h2 : pyRepr (.arr xs) = "" := h
      rw [pyRepr] at h2
      refine absurd h2 (string_ne_empty_of_length _ ?_)
      rw [String.length_append, String.length_append]
      have : (0:Nat) < "[".length := by decide
      omega
    | obj kvs =>
      have h2 : pyRepr (.obj kvs) = "" := h
      rw [pyRepr] at h2
      refine absurd h2 (string_ne_empty_of_length _ ?_)
      rw [String.length_append, String.length_append]
      have : (0:Nat) < "\x7b".length := by decide
      omega
  · intro h
    rw [h]
    rfl

/-! ## Claims -/

/-- A ten-point short-text question, its submitted answer, and two provider
entries for it: one awarding 999 points and one awarding −5. -/
def c1Question : Question := ⟨2, .shortText, "essay", "rubric", 10, 0, []⟩

/-- The submission answer row for `c1Question` joined to it. -/
def c1Answer : JoinedAnswer := ⟨c1Question, "text", none⟩

/-- Provider entry awarding 999 points on the ten-point question. -/
def c1Item999 : JsonV := .obj [("question_id", .num 2), ("awarded_points", .num 999)]

/-- Provider entry awarding −5 points. -/
def c1ItemNeg : JsonV := .obj [("question_id", .num 2), ("awarded_points", .num (-5))]

/-- C1: every provider `per_question` entry that the normalizer processes has
its awarded points clamped into `[0, question.points]`, where the point value
is the one fetched from storage through the submission answer row matching
the entry's question id; in particular a provider value of 999 on a ten-point
question yields exactly 10, and a negative value yields 0. -/
theorem C1_awarded_points_clamped
    (answers : List JoinedAnswer) (items : List JsonV) (t : ℚ)
    (per : List PerQuestionGrade) (g : PerQuestionGrade) (a : JoinedAnswer)
    (hall : normalizeAll answers items = .ok (t, per)) (hg : g ∈ per)
    (ha : answers.find? (fun x => decide ((x.question.id : Int) = g.question_id)) = some a)
    (hpts : 0 ≤ a.question.points) :
    (0 ≤ g.awarded_points ∧ g.awarded_points ≤ a.question.points) ∧
    (normalizeItem [c1Answer] c1Item999).toOption.map (fun x => x.awarded_points) = some 10 ∧
    (normalizeItem [c1Answer] c1ItemNeg).toOption.map (fun x => x.awarded_points) = some 0 := by
  refine ⟨?_, ?_, ?_⟩
  · obtain ⟨item, _hin, hitem⟩ := normalizeAll_ok_mem answers items t per hall g hg
    obtain ⟨a0, x, hfind, heq⟩ := normalizeItem_ok answers item g hitem
    rw [ha] at hfind
    obtain rfl := (Option.some.injEq _ _).mp hfind
    rw [heq]
    exact clampAward_bounds x _ hpts
  · norm_num +decide [normalizeItem, c1Answer, c1Question, c1Item999, pyInt, ratTrunc,
      pyDecimalOfStr, clampAward, coerceIsCorrect, pyStr, pyStrip, List.find?]
  · norm_num +decide [normalizeItem, c1Answer, c1Question, c1ItemNeg, pyInt, ratTrunc,
      pyDecimalOfStr, clampAward, coerceIsCorrect, pyStr, pyStrip, List.find?]

/-- The normalized entry the 999-point provider item produces. -/
def c1Grade999 : PerQuestionGrade := ⟨2, 10, none, ""⟩

/-- Witness for C1 at the concrete ten-point question. -/
theorem C1_awarded_points_clamped_witness :
    ((0 ≤ c1Grade999.awarded_points ∧ c1Grade999.awarded_points ≤ c1Answer.question.points) ∧
      (normalizeItem [c1Answer] c1Item999).toOption.map (fun x => x.awarded_points) = some 10 ∧
      (normalizeItem [c1Answer] c1ItemNeg).toOption.map (fun x => x.awarded_points) = some 0) :=
  C1_awarded_points_clamped [c1Answer] [c1Item999] 10 [c1Grade999] c1Grade999 c1Answer
    (by norm_num +decide [normalizeAll, normalizeItem, c1Answer, c1Question, c1Item999,
      c1Grade999, pyInt, ratTrunc, pyDecimalOfStr, clampAward, coerceIsCorrect, pyStr,
      pyStrip, List.find?])
    (by simp)
    (by norm_num +decide [c1Answer, c1Question, c1Grade999, List.find?])
    (by norm_num [c1Answer, c1Question])

/-- An exam with two ten-point questions of which the student answered only
the first. -/
def c2Q1 : Question := ⟨1, .shortText, "first", "", 10, 0, []⟩

/-- The second, unanswered question of the C2 exam. -/
def c2Q2 : Question := ⟨2, .shortText, "second", "", 10, 1, []⟩

/-- The C2 exam owning both questions. -/
def c2Exam : Exam := ⟨1, "Exam", 60, ⟨"CS1", "Intro"⟩, true, none, none, [c2Q1, c2Q2]⟩

/-- The submission answers: only `c2Q1` was answered. -/
def c2Answers : List JoinedAnswer := [⟨c2Q1, "answered", none⟩]

/-- A well-formed provider response with an empty `per_question` list. -/
def c2Resp : List (String × JsonV) := [("per_question", .arr [])]

/-- C2 counterexample: with only one of the two ten-point exam questions
answered, the normalizer returns `max_score = 10`, not the exam-wide sum 20:
`max_score` is summed over the submission's answer rows, not over all
questions of the exam. -/
theorem C2_counterexample_partial_submission :
    (normalizeGradeResult c2Resp c2Answers).toOption.map (fun r => r.max_score) = some 10 ∧
    (c2Exam.questions.map (fun q => q.points)).sum = 20 ∧ (10 : ℚ) ≠ 20 := by
  refine ⟨?_, ?_, by norm_num⟩
  · norm_num +decide [normalizeGradeResult, normalizeCore, perQuestionRaw, normalizeAll,
      mergeWithDeterministicMcq, coerceFeedback, pyStr, c2Resp, c2Answers, c2Q1]
  · norm_num [c2Exam, c2Q1, c2Q2]

/-- C2 as amended: the `max_score` returned by the normalizer equals the sum
of the point values of the questions the student submitted answers for (the
submission's answer rows), regardless of the provider response; it equals the
exam-wide sum only when every question was answered. -/
theorem C2_max_score_is_sum_over_answers (resp : List (String × JsonV))
    (answers : List JoinedAnswer) (r : GradeResult)
    (hok : normalizeGradeResult resp answers = .ok r) :
    r.max_score = (answers.map (fun a => a.question.points)).sum := by
  obtain ⟨raw, t, per, _, _, _, _, hmax, _⟩ := normalizeCore_ok _ _ _ _ _ hok
  exact hmax

/-- The grade result of the C2 partial submission. -/
def c2Result : GradeResult := ⟨0, 10, "llm-v1", [], []⟩

/-- Witness for the amended C2 at the partial submission. -/
theorem C2_max_score_is_sum_over_answers_witness :
    c2Result.max_score = (c2Answers.map (fun a => a.question.points)).sum :=
  C2_max_score_is_sum_over_answers c2Resp c2Answers c2Result
    (by norm_num +decide [normalizeGradeResult, normalizeCore, perQuestionRaw, normalizeAll,
      mergeWithDeterministicMcq, coerceFeedback, pyStr, c2Resp, c2Answers, c2Q1, c2Result,
      GradeResult.mk.injEq])

/-- C3: the deterministic MCQ scorer grades by equality of the submitted
choice id with the id of the first choice marked correct (no correct choice
or no selection is always incorrect), awards all-or-nothing points, emits the
fixed feedback strings, and its grade is what the merge appends for every MCQ
answer not already covered by the provider list. -/
theorem C3_mcq_deterministic_scoring (a : JoinedAnswer)
    (hmcq : a.question.type = .mcq) :
    (∀ c, firstCorrectChoice a.question = some c →
      (mcqGrade a).is_correct = some (decide (a.selected_choice_id = some c.id))) ∧
    (firstCorrectChoice a.question = none → (mcqGrade a).is_correct = some false) ∧
    (a.selected_choice_id = none → (mcqGrade a).is_correct = some false) ∧
    ((mcqGrade a).is_correct = some true →
      (mcqGrade a).awarded_points = a.question.points ∧ (mcqGrade a).feedback = "Correct.") ∧
    ((mcqGrade a).is_correct = some false →
      (mcqGrade a).awarded_points = 0 ∧ (mcqGrade a).feedback = "Incorrect.") ∧
    (∀ answers total per, a ∈ answers →
      ¬ ((a.question.id : Int) ∈ per.map (fun p => p.question_id)) →
      mcqGrade a ∈ (mergeWithDeterministicMcq answers total per).2) := by
  refine ⟨?_, ?_, ?_, ?_, ?_, ?_⟩
  · intro c hc
    simp [mcqGrade, hc]
  · intro hc
    simp [mcqGrade, hc]
  · intro hsel
    cases hc : firstCorrectChoice a.question <;> simp [mcqGrade, hc, hsel]
  · intro h
    cases hc : firstCorrectChoice a.question with
    | none => simp [mcqGrade, hc] at h
    | some c =>
      simp only [mcqGrade, hc, Option.some.injEq] at h
      simp [mcqGrade, hc, h]
  · intro h
    cases hc : firstCorrectChoice a.question with
    | none => simp [mcqGrade, hc]
    | some c =>
      simp only [mcqGrade, hc, Option.some.injEq] at h
      simp [mcqGrade, hc, h]
  · intro answers total per hmem hnot
    exact merge_mem_added answers total per a hmem hmcq hnot

/-- An MCQ answer selecting the marked-correct choice. -/
def c3Question : Question := ⟨5, .mcq, "pick", "", 4, 0, [⟨51, "A", true⟩, ⟨52, "B", false⟩]⟩

/-- The joined answer selecting choice 51 of `c3Question`. -/
def c3Answer : JoinedAnswer := ⟨c3Question, "", some 51⟩

/-- Witness for C3 at a concrete correctly-answered MCQ. -/
theorem C3_mcq_deterministic_scoring_witness :
    (mcqGrade c3Answer).is_correct = some (decide (c3Answer.selected_choice_id = some 51)) ∧
    mcqGrade c3Answer ∈ (mergeWithDeterministicMcq [c3Answer] 0 []).2 :=
  ⟨(C3_mcq_deterministic_scoring c3Answer rfl).1 ⟨51, "A", true⟩
      (by norm_num +decide [firstCorrectChoice, c3Answer, c3Question, List.find?]),
   (C3_mcq_deterministic_scoring c3Answer rfl).2.2.2.2.2 [c3Answer] 0 []
      (by simp) (by simp)⟩

/-- The MCQ question and answer of the C4 scenario: the student selected the
marked-correct choice of a three-point question. -/
def c4Question : Question := ⟨1, .mcq, "pick", "", 3, 0, [⟨11, "A", true⟩, ⟨12, "B", false⟩]⟩

/-- The submission answer selecting the correct choice 11. -/
def c4Answer : JoinedAnswer := ⟨c4Question, "", some 11⟩

/-- A provider response that carries an entry for the MCQ question id,
overruling it with zero points. -/
def c4RespTampered : List (String × JsonV) :=
  [("per_question", .arr [.obj [("question_id", .num 1), ("awarded_points", .num 0),
    ("is_correct", .boolean false), ("feedback", .str "LLM overruled")]])]

/-- A provider response with no entry for the MCQ question. -/
def c4RespEmpty : List (String × JsonV) := [("per_question", .arr [])]

/-- C4 is violated by the code: the merge skips the deterministic scorer for
any question id already present in the provider list, so a provider entry
carrying the MCQ question id survives into the final result.  On the same
correctly-answered three-point MCQ, a tampering provider response yields
`(0, is_correct = false)` while an empty one yields the deterministic
`(3, is_correct = true)` — the MCQ grade depends on the provider response,
contradicting the module docstring "MCQ questions are always graded
deterministically regardless of provider". -/
theorem C4_provider_response_alters_mcq_grade :
    (normalizeGradeResult c4RespTampered [c4Answer]).toOption.map (fun r => r.per_question) =
      some [⟨1, 0, some false, "LLM overruled"⟩] ∧
    (normalizeGradeResult c4RespEmpty [c4Answer]).toOption.map (fun r => r.per_question) =
      some [⟨1, 3, some true, "Correct."⟩] := by
  constructor <;>
    norm_num +decide [normalizeGradeResult, normalizeCore, perQuestionRaw, normalizeAll,
      normalizeItem, mergeWithDeterministicMcq, mcqGrade, firstCorrectChoice,
      c4RespTampered, c4RespEmpty, c4Answer, c4Question, pyInt, ratTrunc, pyDecimalOfStr,
      clampAward, coerceIsCorrect, coerceFeedback, pyStr, pyStrip, List.find?,
      List.mergeSort, List.splitInTwo, List.merge]

/-- C5: whenever `create_and_grade_submission` raises — at validation, at the
provider call, or at any later persistence step — the transaction is rolled
back: the caller observes the error and the store, including its Submission
and SubmissionAnswer tables, is exactly as before the call. -/
theorem C5_failure_rolls_back_whole_transaction (st : Store) (now : ℚ)
    (user_id exam_id : Nat) (payload : List AnswerPayloadItem) (apiKey : String)
    (envs : Nat → AttemptEnv) (err : Err)
    (h : (createAndGradeSubmission st now user_id exam_id payload apiKey envs).2 =
      .error err) :
    (createAndGradeSubmission st now user_id exam_id payload apiKey envs).1 = st ∧
    (createAndGradeSubmission st now user_id exam_id payload apiKey envs).1.submissions =
      st.submissions ∧
    (createAndGradeSubmission st now user_id exam_id payload apiKey envs).1.answers =
      st.answers := by
  cases hb : createAndGradeBody st now user_id exam_id payload apiKey envs with
  | ok v =>
    obtain ⟨st2, sid⟩ := v
    rw [createAndGradeSubmission, hb] at h
    simp at h
  | error e =>
    rw [createAndGradeSubmission, hb]
    exact ⟨rfl, rfl, rfl⟩

/-- The course, question, exam, store and payload of the C5 scenario: a
single-question open exam with no prior submissions. -/
def c5Question : Question := ⟨1, .shortText, "explain", "rubric", 10, 0, []⟩

/-- The open exam owning `c5Question`. -/
def c5Exam : Exam := ⟨1, "Midterm", 60, ⟨"CS101", "Intro"⟩, true, none, none, [c5Question]⟩

/-- The store before the submission: one exam, no submissions, no answers. -/
def c5Store : Store := ⟨[c5Exam], [], [], 1⟩

/-- The answers payload: one text answer. -/
def c5Payload : List AnswerPayloadItem := [⟨1, none, some "my answer"⟩]

/-- A network environment in which every provider attempt fails with a
transport error. -/
def c5Envs : Nat → AttemptEnv := fun _ => .netError "connection refused"

/-- The error the exhausted retry loop surfaces. -/
def c5Err : Err :=
  .llmGrading ("LLM grading failed: " ++ (Err.requestException "connection refused").str)

/-- Witness for C5: four consecutive provider transport failures abort the
submission and leave the store untouched. -/
theorem C5_failure_rolls_back_whole_transaction_witness :
    (createAndGradeSubmission c5Store 0 42 1 c5Payload "sk-key" c5Envs).1 = c5Store ∧
    (createAndGradeSubmission c5Store 0 42 1 c5Payload "sk-key" c5Envs).1.submissions =
      c5Store.submissions ∧
    (createAndGradeSubmission c5Store 0 42 1 c5Payload "sk-key" c5Envs).1.answers =
      c5Store.answers :=
  C5_failure_rolls_back_whole_transaction c5Store 0 42 1 c5Payload "sk-key" c5Envs c5Err
    (by
      have hgrade : openAIGrade c5Envs =
          (.error c5Err, 4, [baseDelay * 1, baseDelay * 2, baseDelay * 3]) := by
        unfold openAIGrade
        rw [gradeAux_step_fail c5Envs 0 _ (.requestException "connection refused")
            (by norm_num [maxRetries]) rfl,
          gradeAux_step_fail c5Envs 1 _ (.requestException "connection refused")
            (by norm_num [maxRetries]) rfl,
          gradeAux_step_fail c5Envs 2 _ (.requestException "connection refused")
            (by norm_num [maxRetries]) rfl,
          gradeAux_last_fail c5Envs 3 _ (.requestException "connection refused")
            (by norm_num [maxRetries]) (by norm_num [maxRetries]) rfl]
        norm_num [c5Err]
      norm_num +decide [createAndGradeSubmission, createAndGradeBody, c5Store, c5Exam,
        c5Question, c5Payload, Exam.isOpen, buildAnswerRows, mkAnswerRow,
        pyStrip, gradeSubmissionWithProvider, Store.joinedAnswers, Store.findQuestion,
        buildPayload, payloadTextOnly, firstCorrectChoice, hgrade,
        List.find?, List.mergeSort])

/-- The HTTP-level environments of the C6 statement: any four consecutive
failing attempts. -/
def c6Envs : Nat → AttemptEnv := fun _ => .netError "refused"

/-- C6: on transient failures (network error, status ≥ 400, non-JSON body)
the adapter makes exactly 4 attempts, sleeping `baseDelay * attemptNumber`
between consecutive attempts, raises an `LLMGradingError` carrying the last
underlying error after the fourth failure, and never consults the
environment beyond attempt 3 — no fifth attempt exists. -/
theorem C6_retry_budget_and_backoff (envs : Nat → AttemptEnv) (e0 e1 e2 e3 : Err)
    (h0 : attemptOnce (envs 0) = .error e0) (h1 : attemptOnce (envs 1) = .error e1)
    (h2 : attemptOnce (envs 2) = .error e2) (h3 : attemptOnce (envs 3) = .error e3) :
    openAIGrade envs =
      (.error (.llmGrading ("LLM grading failed: " ++ e3.str)), 4,
        [baseDelay * 1, baseDelay * 2, baseDelay * 3]) ∧
    (∀ envs2, (∀ i, i ≤ 3 → envs2 i = envs i) → openAIGrade envs2 = openAIGrade envs) ∧
    (∀ m, ∃ e, attemptOnce (.netError m) = .error e) ∧
    (∀ s t b, 400 ≤ s → ∃ e, attemptOnce (.resp s t b) = .error e) ∧
    (∀ s t u, ∃ e, attemptOnce (.resp s t (.content u none)) = .error e) := by
  refine ⟨?_, ?_, ?_, ?_, ?_⟩
  · unfold openAIGrade
    rw [gradeAux_step_fail envs 0 _ e0 (by norm_num [maxRetries]) h0,
      gradeAux_step_fail envs 1 _ e1 (by norm_num [maxRetries]) h1,
      gradeAux_step_fail envs 2 _ e2 (by norm_num [maxRetries]) h2,
      gradeAux_last_fail envs 3 _ e3 (by norm_num [maxRetries]) (by norm_num [maxRetries]) h3]
    norm_num
  · intro envs2 hag
    exact gradeAux_congr envs envs2 (maxRetries + 1 - 0) 0 [] rfl
      (fun i _ h2 => hag i h2)
  · intro m
    exact ⟨_, rfl⟩
  · intro s t b hs
    cases b with
    | badTransport m => simp [attemptOnce, hs]
    | content u p =>
      cases p with
      | none => simp [attemptOnce, hs]
      | some o => simp [attemptOnce, hs]
  · intro s t u
    by_cases hs : s ≥ 400 <;> simp [attemptOnce, hs]

/-- Witness for C6: four failing attempts produce the final error, four
attempts and the three linearly growing sleeps. -/
theorem C6_retry_budget_and_backoff_witness :
    openAIGrade c6Envs =
      (.error (.llmGrading ("LLM grading failed: " ++ (Err.requestException "refused").str)),
        4, [baseDelay * 1, baseDelay * 2, baseDelay * 3]) :=
  (C6_retry_budget_and_backoff c6Envs _ _ _ _ rfl rfl rfl rfl).1

/-- C7 counterexample: a provider response that parses as JSON but has NO
`per_question` key normalizes successfully — `resp.get("per_question", [])`
silently defaults to the empty list instead of failing hard. -/
theorem C7_counterexample_missing_key_accepted :
    (normalizeGradeResult [] []).isOk = true := by
  norm_num +decide [normalizeGradeResult, normalizeCore, perQuestionRaw, normalizeAll,
    mergeWithDeterministicMcq, coerceFeedback, pyStr, Except.isOk, Except.toBool]

/-- C7 as amended: the normalizer raises the `per_question` shape error
exactly when the key is present with a non-list value; an absent key is
silently defaulted to the empty list (normalization proceeds as if
`per_question` were `[]`). -/
theorem C7_per_question_shape_check :
    (∀ resp answers (v : JsonV), dictGet resp "per_question" = some v →
      (∀ xs, v ≠ .arr xs) →
      normalizeGradeResult resp answers = .error (.llmGrading "per_question must be a list")) ∧
    (∀ resp answers, dictGet resp "per_question" = none →
      normalizeGradeResult resp answers =
        normalizeGradeResult (("per_question", JsonV.arr []) :: resp) answers) := by
  constructor
  · intro resp answers v hv hna
    have hpr : perQuestionRaw (some v) = .error (.llmGrading "per_question must be a list") := by
      cases v <;> first | rfl | exact absurd rfl (hna _)
    unfold normalizeGradeResult normalizeCore
    rw [hv, hpr]
  · intro resp answers h
    unfold normalizeGradeResult
    have h1 : dictGet (("per_question", JsonV.arr []) :: resp) "grading_version" =
        dictGet resp "grading_version" := by simp +decide
    have h2 : dictGet (("per_question", JsonV.arr []) :: resp) "feedback" =
        dictGet resp "feedback" := by simp +decide
    have h3 : dictGet (("per_question", JsonV.arr []) :: resp) "per_question" =
        some (JsonV.arr []) := by simp
    rw [h, h1, h2, h3]
    rfl

/-- Witness for the amended C7: a numeric `per_question` raises; an absent
one behaves as the empty list. -/
theorem C7_per_question_shape_check_witness :
    normalizeGradeResult [("per_question", JsonV.num 3)] [] =
      .error (.llmGrading "per_question must be a list") ∧
    normalizeGradeResult [("grading_version", JsonV.str "v9")] [] =
      normalizeGradeResult
        (("per_question", JsonV.arr []) :: [("grading_version", JsonV.str "v9")]) [] :=
  ⟨C7_per_question_shape_check.1 [("per_question", JsonV.num 3)] [] (JsonV.num 3)
      (by simp) (by intro xs h; cases h),
   C7_per_question_shape_check.2 [("grading_version", JsonV.str "v9")] [] (by simp +decide)⟩

/-- C8: for every provider response and submission, the merged per-question
list is sorted by question id ascending — hence independent of provider
response order — and the returned total score is exactly the sum of the
awarded points over the merged list (normalized text entries plus appended
MCQ entries). -/
theorem C8_merged_sorted_and_total_is_sum (resp : List (String × JsonV))
    (answers : List JoinedAnswer) (r : GradeResult)
    (hok : normalizeGradeResult resp answers = .ok r) :
    r.per_question.Pairwise (fun x y => x.question_id ≤ y.question_id) ∧
    r.total_score = (r.per_question.map (fun g => g.awarded_points)).sum := by
  obtain ⟨raw, t, per, _hraw, hall, htot, hper, _, _⟩ := normalizeCore_ok _ _ _ _ _ hok
  constructor
  · rw [hper]
    exact merge_sorted answers t per
  · rw [htot, hper]
    exact merge_total answers t per (normalizeAll_ok_total answers raw t per hall)

/-- The MCQ question of the worked C8 scenario (spec §8 example). -/
def c8QM : Question := ⟨1, .mcq, "pick", "", 3, 0, [⟨11, "A", true⟩, ⟨12, "B", false⟩]⟩

/-- The ten-point text question of the C8 scenario. -/
def c8QT : Question := ⟨2, .shortText, "explain", "rubric", 10, 1, []⟩

/-- The C8 submission answers: correct MCQ choice plus a text answer. -/
def c8Answers : List JoinedAnswer := [⟨c8QM, "", some 11⟩, ⟨c8QT, "some answer", none⟩]

/-- The provider response grading only the text question with 7 points. -/
def c8Resp : List (String × JsonV) :=
  [("per_question", .arr [.obj [("question_id", .num 2), ("awarded_points", .num 7),
    ("is_correct", .null), ("feedback", .str "partial")]])]

/-- The normalized result of the C8 scenario. -/
def c8Result : GradeResult :=
  ⟨10, 13, "llm-v1", [], [⟨1, 3, some true, "Correct."⟩, ⟨2, 7, none, "partial"⟩]⟩

/-- Witness for C8 at the worked example: MCQ entry appended and sorted in
front, total 10 = 3 + 7. -/
theorem C8_merged_sorted_and_total_is_sum_witness :
    c8Result.per_question.Pairwise (fun x y => x.question_id ≤ y.question_id) ∧
    c8Result.total_score = (c8Result.per_question.map (fun g => g.awarded_points)).sum :=
  C8_merged_sorted_and_total_is_sum c8Resp c8Answers c8Result
    (by norm_num +decide [normalizeGradeResult, normalizeCore, perQuestionRaw, normalizeAll,
      normalizeItem, mergeWithDeterministicMcq, mcqGrade, firstCorrectChoice,
      c8Resp, c8Answers, c8QM, c8QT, c8Result, pyInt, ratTrunc, pyDecimalOfStr, clampAward,
      coerceIsCorrect, coerceFeedback, pyStr, pyStrip, List.find?,
      List.mergeSort, List.splitInTwo, List.merge, GradeResult.mk.injEq])

/-- The five-point short-text question the student never answered (it exists
on the exam but has no submission answer row). -/
def c9QSkipped : Question := ⟨7, .shortText, "skipped", "", 5, 0, []⟩

/-- The other short-text question, which was answered. -/
def c9QAnswered : Question := ⟨8, .shortText, "answered", "", 5, 1, []⟩

/-- The submission answer rows: only question 8 was answered. -/
def c9Answers : List JoinedAnswer := [⟨c9QAnswered, "some text", none⟩]

/-- A provider response that includes the unanswered question 7 with 0
points, as the grading prompt instructs it to. -/
def c9RespIncluded : List (String × JsonV) :=
  [("per_question", .arr [
    .obj [("question_id", .num 7), ("awarded_points", .num 0), ("is_correct", .null),
      ("feedback", .str "No answer provided.")],
    .obj [("question_id", .num 8), ("awarded_points", .num 5)]])]

/-- The same response with the unanswered question omitted entirely. -/
def c9RespOmitted : List (String × JsonV) :=
  [("per_question", .arr [.obj [("question_id", .num 8), ("awarded_points", .num 5)]])]

/-- C9 evidence: when the provider includes the unanswered question with 0
points, the normalizer raises `DoesNotExist` from the answer-row lookup
instead of honoring the entry, so grading fails entirely; only the
omitted-entirely half of the claim holds (the question is absent from the
final list). -/
theorem C9_unanswered_included_entry_crashes :
    normalizeGradeResult c9RespIncluded c9Answers =
      .error (.doesNotExist "SubmissionAnswer matching query does not exist.") ∧
    (normalizeGradeResult c9RespOmitted c9Answers).toOption.map
        (fun r => r.per_question.map (fun g => g.question_id)) = some [8] := by
  constructor <;>
    norm_num +decide [normalizeGradeResult, normalizeCore, perQuestionRaw, normalizeAll,
      normalizeItem, mergeWithDeterministicMcq, c9RespIncluded, c9RespOmitted, c9Answers,
      c9QAnswered, pyInt, ratTrunc, pyDecimalOfStr, clampAward, coerceIsCorrect,
      coerceFeedback, pyStr, pyStrip, List.find?, List.mergeSort]

/-- C10 counterexample: a provider response carrying `grading_version: ""`
normalizes successfully and persists the empty string — the claim that a
successful grading never has an empty `grading_version` fails. -/
theorem C10_counterexample_empty_version_accepted :
    (normalizeGradeResult [("grading_version", JsonV.str ""), ("per_question", JsonV.arr [])]
        []).toOption.map (fun r => r.grading_version) = some "" := by
  norm_num +decide [normalizeGradeResult, normalizeCore, perQuestionRaw, normalizeAll,
    mergeWithDeterministicMcq, coerceFeedback, pyStr]

/-- C10 as amended: the persisted `grading_version` is the string `"llm-v1"`
exactly when the provider response omits the key, and the Python `str`
coercion of the provided value otherwise; it is the empty string precisely
when the provider supplied the empty string. -/
theorem C10_grading_version_default_and_coercion (resp : List (String × JsonV))
    (answers : List JoinedAnswer) (r : GradeResult)
    (hok : normalizeGradeResult resp answers = .ok r) :
    (dictGet resp "grading_version" = none → r.grading_version = "llm-v1") ∧
    (∀ v, dictGet resp "grading_version" = some v → r.grading_version = pyStr v) ∧
    (r.grading_version = "" ↔ dictGet resp "grading_version" = some (JsonV.str "")) := by
  obtain ⟨_, _, _, _, _, _, _, _, hgv⟩ := normalizeCore_ok _ _ _ _ _ hok
  refine ⟨?_, ?_, ?_⟩
  · intro h
    rw [hgv, h]
    rfl
  · intro v h
    rw [hgv, h]
    rfl
  · cases h : dictGet resp "grading_version" with
    | none =>
      rw [hgv, h]
      constructor
      · intro he
        exact absurd he (by decide)
      · intro he
        simp at he
    | some v =>
      rw [hgv, h]
      show pyStr v = "" ↔ some v = some (JsonV.str "")
      rw [pyStr_eq_empty_iff]
      exact Option.some_inj.symm

/-- The normalized result of the empty-version response. -/
def c10Result : GradeResult := ⟨0, 0, "", [], []⟩

/-- Witness for the amended C10: the empty provider string coerces to the
persisted empty version string. -/
theorem C10_grading_version_default_and_coercion_witness :
    c10Result.grading_version = pyStr (JsonV.str "") :=
  (C10_grading_version_default_and_coercion
      [("grading_version", JsonV.str ""), ("per_question", JsonV.arr [])] [] c10Result
      (by norm_num +decide [normalizeGradeResult, normalizeCore, perQuestionRaw,
        normalizeAll, mergeWithDeterministicMcq, coerceFeedback, pyStr, c10Result,
        GradeResult.mk.injEq])).2.1
    (JsonV.str "") (by simp +decide)

end AcadAi
